import Mathlib

/-!
Shallow embedding of `src/bot.py` (grim-source/x-scrapper): an X→Nostr bot
that scrapes the newest post of each configured account from a Nitter
mirror, compares it with per-account persisted state, formats a note and
publishes it to Nostr relays, then persists the new last-seen post id.

External collaborators (the HTTP transport, the BeautifulSoup HTML queries
and the nostr SDK) are modelled as explicit inputs: DOM query results are
fields of `Soup`, the SDK's fallible operations are flags in `SdkBehavior`,
and the side effects of the publisher are recorded as a `NetAction` trace.
All the string processing, control flow and state manipulation of the
Python source is embedded directly.
-/

namespace XScrapper

/-- Python `str.strip()`: drop leading and trailing whitespace. -/
def pyStrip (s : String) : String :=
  String.mk (((s.data.dropWhile Char.isWhitespace).reverse.dropWhile Char.isWhitespace).reverse)

/-- Python truthiness of an optional string (`None` and `""` are falsy). -/
def pyTruthy (o : Option String) : Bool := o.getD "" != ""

/-- Python truthiness of a plain string (`""` is falsy). -/
def pyStrTruthy (s : String) : Bool := s != ""

/-- Python `a or b` for optional strings (used for `get(..) or get(..)`). -/
def pyOrStr (a b : Option String) : Option String := if pyTruthy a then a else b

/-- Python `s.startswith(pre)`. -/
def pyStartsWith (s pre : String) : Bool := pre.data.isPrefixOf s.data

/-- Worker for `pySplit`: scan the character list left to right, cutting at
each leftmost non-overlapping occurrence of the (nonempty) separator. The
fuel argument only bounds the recursion; it never runs out when it starts
at the length of the list, since every step consumes at least one
character. -/
def pySplitGo (sep : List Char) : Nat → List Char → List Char → List (List Char)
  | _, [], acc => [acc.reverse]
  | 0, l, acc => [acc.reverse ++ l]
  | fuel + 1, c :: rest, acc =>
    if sep.isPrefixOf (c :: rest) then
      acc.reverse :: pySplitGo sep fuel ((c :: rest).drop sep.length) []
    else pySplitGo sep fuel rest (c :: acc)

/-- Python `s.split(sep)` for a nonempty separator (the only way the
source uses it). -/
def pySplit (s sep : String) : List String :=
  (pySplitGo sep.data (s.data.length + 1) s.data []).map String.mk

/-! ## State store (`load_state`, `get_last_post_id`, `save_state_for_account`) -/

/-- One per-account record inside `state["accounts"]`: the keys
`"last_post_id"` and `"last_updated"`, each possibly absent. -/
structure AccountState where
  last_post_id : Option String
  last_updated : Option String
  deriving DecidableEq

/-- The top-level JSON object of `state.json`: an optional `"accounts"`
mapping, the legacy top-level `"last_post_id"` key (presence signals the
old single-account format), and the top-level `"last_updated"` key. -/
structure BotState where
  accounts : Option (List (String × AccountState))
  legacy_last_post_id : Option String
  last_updated : Option String
  deriving DecidableEq

/-- `{"accounts": {}}`, the value `load_state` produces for every
missing/corrupt/legacy file (bot.py lines 40, 44, 45). -/
def emptyBotState : BotState :=
  { accounts := some [], legacy_last_post_id := none, last_updated := none }

/-- The observable content of `state.json`: absent, unparseable JSON, or a
parsed top-level object. -/
inductive StateFile where
  | missing : StateFile
  | corrupt : StateFile
  | parsed : BotState → StateFile
  deriving DecidableEq

/-- `load_state` (bot.py lines 30-45): a missing file, an unreadable or
unparseable file, and a parsed file carrying the legacy top-level
`"last_post_id"` key all load as `{"accounts": {}}`. -/
def load_state : StateFile → BotState
  | StateFile.missing => emptyBotState
  | StateFile.corrupt => emptyBotState
  | StateFile.parsed s =>
      if s.legacy_last_post_id.isSome then emptyBotState else s

/-- Python dict lookup on the association list modelling `state["accounts"]`. -/
def alGet : List (String × AccountState) → String → Option AccountState
  | [], _ => none
  | (k, v) :: rest, u => if k = u then some v else alGet rest u

/-- Python dict assignment on the association list modelling `state["accounts"]`. -/
def alSet : List (String × AccountState) → String → AccountState → List (String × AccountState)
  | [], u, v => [(u, v)]
  | (k, w) :: rest, u, v => if k = u then (u, v) :: rest else (k, w) :: alSet rest u v

/-- `get_last_post_id` (bot.py lines 48-50):
`state.get("accounts", {}).get(username, {}).get("last_post_id", None)`. -/
def get_last_post_id (state : BotState) (username : String) : Option String :=
  match state.accounts with
  | none => none
  | some accs =>
    match alGet accs username with
    | none => none
    | some a => a.last_post_id

/-- The in-memory mutation performed by `save_state_for_account`
(bot.py lines 57-65) before the file write: ensure the `"accounts"` key,
ensure the per-account record, set its `last_post_id` and `last_updated`,
and set the top-level `last_updated`. -/
def save_mutate (state : BotState) (username post_id now : String) : BotState :=
  let accs := state.accounts.getD []
  let acct := (alGet accs username).getD { last_post_id := none, last_updated := none }
  { accounts := some (alSet accs username { acct with last_post_id := some post_id, last_updated := some now })
    legacy_last_post_id := state.legacy_last_post_id
    last_updated := some now }

/-- The mutable world of one run: the in-memory `state` dict and the
content of `state.json` on disk. -/
structure World where
  mem : BotState
  file : StateFile
  deriving DecidableEq

/-- `save_state_for_account` (bot.py lines 53-76): mutate the in-memory
state, then dump the whole state to `state.json`; `ioOk` models whether
the file write raises. On a failed write the in-memory mutation has
already happened, the file is unchanged, and `False` is returned. -/
def save_state_for_account (w : World) (username post_id now : String) (ioOk : Bool) :
    World × Bool :=
  let mem := save_mutate w.mem username post_id now
  if ioOk then (⟨mem, StateFile.parsed mem⟩, true) else (⟨mem, w.file⟩, false)

/-! ## Post extractor (`scrape_nitter_post`, bot.py lines 79-196)

The BeautifulSoup queries are external: a `Soup` records what each query
used by the code would return on the fetched page, in document order.
The string processing of strategy 3 and the fallback control flow are
embedded directly. -/

/-- A content element: `text` is `get_text(strip=True)` after the
`tweet-link` anchors/spans have been decomposed. -/
structure Elem where
  text : String
  deriving DecidableEq

/-- A tweet item container (`timeline-item` / `tweet` div): its `data-id`
and `data-item-id` attributes and its nested content elements. -/
structure ItemDiv where
  dataId : Option String
  dataItemId : Option String
  tweetContent : Option Elem
  tweetBody : Option Elem
  deriving DecidableEq

/-- A list container (`tweet-list` / `timeline` div) and the first item
found by each of the two nested queries of method 2. -/
structure ContainerDiv where
  tweetDiv : Option ItemDiv
  timelineItemDiv : Option ItemDiv
  deriving DecidableEq

/-- The query results of the fetched page used by `scrape_nitter_post`:
`soup.find("div", class_="timeline-item")`, the two list-container
queries, every `href` of `soup.find_all("a", href=True)` in document
order, and the divs whose class list contains both "tweet" and "content"
(method 4), in document order. -/
structure Soup where
  timelineItem : Option ItemDiv
  tweetListDiv : Option ContainerDiv
  timelineDiv : Option ContainerDiv
  hrefs : List String
  tweetContentDivs : List Elem
  deriving DecidableEq

/-- Python `"/status/" in href`: the split on the pattern has at least
two parts exactly when the pattern occurs. -/
def hasStatusSub (href : String) : Bool := (pySplit href "/status/").length ≥ 2

/-- `href.split("/status/")[-1].split("/")[0].split("?")[0]` (bot.py line 148). -/
def statusCandidate (href : String) : String :=
  let afterStatus := (pySplit href "/status/").getLastD ""
  let beforeSlash := (pySplit afterStatus "/").headD ""
  (pySplit beforeSlash "?").headD ""

/-- Python `str.isdigit` restricted to decimal digits: nonempty and all digits. -/
def pyIsDigit (s : String) : Bool := s.length > 0 && s.data.all Char.isDigit

/-- The strategy-3 loop (bot.py lines 143-150): for each href containing
"/status/", assign the candidate to `post_id`; break only when the
candidate is a nonempty digit string. -/
def method3Loop : List String → Option String → Option String
  | [], pid => pid
  | href :: rest, pid =>
    if hasStatusSub href then
      let c := statusCandidate href
      if pyStrTruthy c && pyIsDigit c then some c
      else method3Loop rest (some c)
    else method3Loop rest pid

/-- The four-strategy extraction chain of `scrape_nitter_post`
(bot.py lines 111-167), ending with the both-fields-or-nothing check. -/
def extractPost (soup : Soup) : Option String × Option String :=
  -- Method 1: timeline-item with data-id and tweet-content (lines 115-123)
  let pids : Option String × Option String :=
    match soup.timelineItem with
    | some item =>
        (item.dataId,
         match item.tweetContent with
         | some c => some c.text
         | none => none)
    | none => (none, none)
  let post_id := pids.1
  let post_text := pids.2
  -- Method 2: first tweet in tweet-list / timeline (lines 126-139)
  let pids : Option String × Option String :=
    if !pyTruthy post_id || !pyTruthy post_text then
      match soup.tweetListDiv <|> soup.timelineDiv with
      | some container =>
        match container.tweetDiv <|> container.timelineItemDiv with
        | some first_tweet =>
          (if !pyTruthy post_id then pyOrStr first_tweet.dataId first_tweet.dataItemId
           else post_id,
           if !pyTruthy post_text then
             match first_tweet.tweetContent <|> first_tweet.tweetBody with
             | some c => some c.text
             | none => post_text
           else post_text)
        | none => (post_id, post_text)
      | none => (post_id, post_text)
    else (post_id, post_text)
  let post_id := pids.1
  let post_text := pids.2
  -- Method 3: status-link scan (lines 142-150)
  let post_id := if !pyTruthy post_id then method3Loop soup.hrefs post_id else post_id
  -- Method 4: any div with "tweet" and "content" in its class (lines 153-160)
  let post_text :=
    if !pyTruthy post_text then
      match soup.tweetContentDivs with
      | c :: _ => some c.text
      | [] => post_text
    else post_text
  -- Final check (lines 162-167)
  if !pyTruthy post_id || !pyTruthy post_text then (none, none)
  else (post_id, post_text)

/-- The outcome of the HTTP fetch (external transport): any of the
request exceptions of bot.py lines 169-196, or a parsed page. -/
inductive FetchOutcome where
  | fetchError : FetchOutcome
  | page : Soup → FetchOutcome

/-- `scrape_nitter_post` (bot.py lines 79-196): input validation, then
(on a successful fetch) the extraction chain; every transport error
yields `(None, None)`. -/
def scrape_nitter_post (username nitter_url : String) (fetch : FetchOutcome) :
    Option String × Option String :=
  if pyStrip username == "" then (none, none)
  else if pyStrip nitter_url == "" then (none, none)
  else
    match fetch with
    | FetchOutcome.fetchError => (none, none)
    | FetchOutcome.page soup => extractPost soup

/-! ## Note formatter (`format_nostr_note`, bot.py lines 199-210) -/

/-- `format_nostr_note`: the f-string template
`"Quote from @{username} on X:\n\n> {post_text}\n\nSource:\n{x_url}"`
with `x_url = "https://x.com/{username}/status/{post_id}"`. -/
def format_nostr_note (username post_text post_id : String) : String :=
  let x_url := "https://x.com/" ++ username ++ "/status/" ++ post_id
  "Quote from @" ++ username ++ " on X:\n\n> " ++ post_text ++ "\n\nSource:\n" ++ x_url

/-- Join a list of lines with newline separators (used to talk about the
line structure of a post text). -/
def joinLines : List String → String
  | [] => ""
  | [l] => l
  | l :: rest => l ++ "\n" ++ joinLines rest

/-! ## Publisher (`publish_to_nostr`, bot.py lines 213-295)

The nostr SDK is external: `SdkBehavior` records which of its fallible
operations succeed, and the trace of externally visible operations the
publisher performs is returned as a `NetAction` list. -/

/-- The distinct failure reports of `publish_to_nostr`, one per distinct
`return False` site, plus success. -/
inductive PublishResult where
  | ok : PublishResult
  | noteTooLong : PublishResult            -- line 219
  | invalidCredential : PublishResult      -- line 224 (bad key format)
  | noRelaysConfigured : PublishResult     -- line 229
  | credentialDeriveFailed : PublishResult -- line 237 (Keys.from_nsec raised)
  | noValidRelays : PublishResult          -- line 263 (no relay added)
  | connectFailed : PublishResult          -- line 271
  | sendFailed : PublishResult             -- line 280
  deriving DecidableEq

/-- `publish_to_nostr` returns a plain boolean to its caller. -/
def PublishResult.toBool : PublishResult → Bool
  | PublishResult.ok => true
  | _ => false

/-- The externally visible SDK operations of the publisher. -/
inductive NetAction where
  | deriveKeys : NetAction
  | addRelay : String → NetAction
  | connect : NetAction
  | send : NetAction
  deriving DecidableEq

/-- Which SDK operations succeed on this run (external behaviour). -/
structure SdkBehavior where
  keysOk : Bool
  addRelayOk : String → Bool
  connectOk : Bool
  sendOk : Bool

/-- The relay-adding loop (bot.py lines 251-260): endpoints with a bad
scheme are skipped with a warning; for the others `client.add_relay` is
attempted and the successes are counted. Returns the count of added
relays and the attempted `addRelay` actions in order. -/
def addRelays (sdk : SdkBehavior) : List String → Nat × List NetAction
  | [] => (0, [])
  | url :: rest =>
    if url == "" || !(pyStartsWith url "ws://" || pyStartsWith url "wss://") then
      addRelays sdk rest
    else
      let r := addRelays sdk rest
      ((if sdk.addRelayOk url then 1 else 0) + r.1, NetAction.addRelay url :: r.2)

/-- `publish_to_nostr` (bot.py lines 213-295): validation checks in
source order, then key derivation, relay adding, connect and send, each
failing independently. The second component is the trace of SDK
operations performed. -/
def publish_to_nostr (note private_key : String) (relays : List String)
    (sdk : SdkBehavior) : PublishResult × List NetAction :=
  if note.length > 32000 then (PublishResult.noteTooLong, [])
  else if private_key == "" || !pyStartsWith private_key "nsec1" then
    (PublishResult.invalidCredential, [])
  else if relays.isEmpty then (PublishResult.noRelaysConfigured, [])
  else if !sdk.keysOk then (PublishResult.credentialDeriveFailed, [NetAction.deriveKeys])
  else
    let r := addRelays sdk relays
    let acts := NetAction.deriveKeys :: r.2
    if r.1 == 0 then (PublishResult.noValidRelays, acts)
    else if !sdk.connectOk then (PublishResult.connectFailed, acts ++ [NetAction.connect])
    else if !sdk.sendOk then
      (PublishResult.sendFailed, acts ++ [NetAction.connect, NetAction.send])
    else (PublishResult.ok, acts ++ [NetAction.connect, NetAction.send])

/-! ## Orchestrator (`process_account` and `main`, bot.py lines 298-406) -/

/-- The external behaviour surrounding one account's processing: the
fetch outcome, the SDK behaviour, whether the state-file write succeeds,
and the timestamp `datetime.now().isoformat()` would produce. -/
structure RunEnv where
  fetch : FetchOutcome
  sdk : SdkBehavior
  saveOk : Bool
  now : String

/-- The observable outcome of `process_account`: its boolean return, the
resulting world (in-memory state and state file), and whether
`publish_to_nostr` was invoked. -/
structure ProcResult where
  ok : Bool
  world : World
  publishCalled : Bool
  deriving DecidableEq

/-- `process_account` (bot.py lines 298-340): look up the last seen post
id, scrape, fail on a failed scrape, no-op when the post id equals the
stored one, otherwise format, publish, and persist on publish success. -/
def process_account (username nitter_url nostr_key : String) (relays : List String)
    (env : RunEnv) (w : World) : ProcResult :=
  let last_post_id := get_last_post_id w.mem username
  let sc := scrape_nitter_post username nitter_url env.fetch
  let post_id := sc.1
  let post_text := sc.2
  if !pyTruthy post_id || !pyTruthy post_text then
    { ok := false, world := w, publishCalled := false }
  else if pyTruthy last_post_id && post_id == last_post_id then
    { ok := true, world := w, publishCalled := false }
  else
    let note := format_nostr_note username (post_text.getD "") (post_id.getD "")
    let pres := publish_to_nostr note nostr_key relays env.sdk
    if pres.1.toBool then
      let res := save_state_for_account w username (post_id.getD "") env.now env.saveOk
      { ok := true, world := res.1, publishCalled := true }
    else
      { ok := false, world := w, publishCalled := true }

/-- The tallies of one `main` run: the final world, the success and error
counters, the number of `publish_to_nostr` invocations and the number of
scrape attempts. -/
structure RunStats where
  world : World
  successes : Nat
  errors : Nat
  publishes : Nat
  fetches : Nat
  deriving DecidableEq

/-- The account loop of `main` (bot.py lines 377-398): strip each
configured identifier, skip the blank ones, process the rest in listed
order threading the shared state, and tally successes and errors. -/
def runLoop (nitter_url nostr_key : String) (relays : List String)
    (envOf : String → RunEnv) : List String → World → RunStats
  | [], w => ⟨w, 0, 0, 0, 0⟩
  | a :: rest, w =>
    let u := pyStrip a
    if u == "" then runLoop nitter_url nostr_key relays envOf rest w
    else
      let r := process_account u nitter_url nostr_key relays (envOf u) w
      let s := runLoop nitter_url nostr_key relays envOf rest r.world
      ⟨s.world,
       (if r.ok then 1 else 0) + s.successes,
       (if r.ok then 0 else 1) + s.errors,
       (if r.publishCalled then 1 else 0) + s.publishes,
       1 + s.fetches⟩

/-- One orchestrator run over a given state file (bot.py lines 343-406
after configuration validation): load the state, then run the account
loop starting from that in-memory state and that file. -/
def mainRun (nitter_url nostr_key : String) (relays : List String)
    (envOf : String → RunEnv) (accounts : List String) (file : StateFile) : RunStats :=
  runLoop nitter_url nostr_key relays envOf accounts ⟨load_state file, file⟩

/-- The process exit status of `main` (bot.py lines 405-406). -/
def mainExitCode (s : RunStats) : Nat := if s.errors > 0 then 1 else 0

/-! ## Concrete instances used in the theorems below -/

/-- `s` contains `sub` as a contiguous substring. -/
def strContainsSub (s sub : String) : Prop := ∃ l r, s = l ++ (sub ++ r)

/-- A page with no timeline structure, a single status link whose id part
is not numeric, and one div classed `tweet-content` holding text. It is
the query view of markup such as
`<div class="tweet-content">hello</div><a href="/alice/status/abc123">x</a>`. -/
def c1Soup : Soup :=
  { timelineItem := none, tweetListDiv := none, timelineDiv := none,
    hrefs := ["/alice/status/abc123"], tweetContentDivs := [{ text := "hello" }] }

/-- A page whose first timeline item carries `data-id="42"` and the
content text `hi`. -/
def okSoup : Soup :=
  { timelineItem := some { dataId := some "42", dataItemId := none,
                           tweetContent := some { text := "hi" }, tweetBody := none },
    tweetListDiv := none, timelineDiv := none, hrefs := [], tweetContentDivs := [] }

/-- SDK behaviour in which every SDK operation succeeds. -/
def sdkAllOk : SdkBehavior :=
  { keysOk := true, addRelayOk := fun _ => true, connectOk := true, sendOk := true }

/-- SDK behaviour in which the final send fails. -/
def sdkSendFail : SdkBehavior :=
  { keysOk := true, addRelayOk := fun _ => true, connectOk := true, sendOk := false }

/-- An environment where fetch, extraction, publish and state save all succeed. -/
def envAllOk : RunEnv :=
  { fetch := FetchOutcome.page okSoup, sdk := sdkAllOk, saveOk := true, now := "t0" }

/-- An environment identical to `envAllOk` except that the send fails. -/
def envSendFail : RunEnv :=
  { fetch := FetchOutcome.page okSoup, sdk := sdkSendFail, saveOk := true, now := "t0" }

/-- A world with no persisted state at all. -/
def worldEmpty : World := { mem := emptyBotState, file := StateFile.missing }

/-- A world whose state already maps `alice` to post id `42`. -/
def worldSeen42 : World :=
  { mem := { accounts := some [("alice", { last_post_id := some "42", last_updated := some "t" })],
             legacy_last_post_id := none, last_updated := some "t" },
    file := StateFile.missing }

/-- A note strictly longer than the 32000-character cap. -/
def longNote : String := String.mk (List.replicate 32001 'a')

/-- The environment of account `u` lets the whole pipeline succeed and
is deterministic: scraping yields the fixed post `(pidf u, ptf u)` with
both fields nonempty, publishing that post's note succeeds, and the
state write succeeds. -/
abbrev goodAccountEnv (nit key : String) (relays : List String)
    (pidf ptf : String → String) (env : RunEnv) (u : String) : Prop :=
  scrape_nitter_post u nit env.fetch = (some (pidf u), some (ptf u))
  ∧ pidf u ≠ "" ∧ ptf u ≠ ""
  ∧ (publish_to_nostr (format_nostr_note u (ptf u) (pidf u)) key relays env.sdk).1 =
      PublishResult.ok
  ∧ env.saveOk = true

/-- Invariant maintained by the account loop when it starts from the
loaded state of `file0`: either nothing has been saved yet (the file is
still `file0` and the memory is its loaded state), or the file is
exactly the serialization of the current in-memory state; and the
in-memory state never carries the legacy top-level key. -/
def runInv (file0 : StateFile) (w : World) : Prop :=
  ((w.file = file0 ∧ w.mem = load_state file0) ∨ w.file = StateFile.parsed w.mem)
  ∧ w.mem.legacy_last_post_id = none

/-! ## Helper lemmas about the state store -/

theorem alGet_alSet_self (l : List (String × AccountState)) (k : String) (v : AccountState) :
    alGet (alSet l k v) k = some v := by
  induction l with
  | nil => simp [alSet, alGet]
  | cons h t ih =>
    obtain ⟨k', v'⟩ := h
    by_cases hk : k' = k
    · simp [alSet, hk, alGet]
    · simp [alSet, hk, alGet, ih]

theorem alGet_alSet_ne (l : List (String × AccountState)) (k k' : String) (v : AccountState)
    (h : k' ≠ k) : alGet (alSet l k v) k' = alGet l k' := by
  induction l with
  | nil => simp [alSet, alGet, Ne.symm h]
  | cons hd t ih =>
    obtain ⟨a, b⟩ := hd
    by_cases ha : a = k
    · subst ha
      simp [alSet, alGet, Ne.symm h]
    · simp [alSet, ha, alGet, ih]

theorem get_last_save_self (s : BotState) (u p now : String) :
    get_last_post_id (save_mutate s u p now) u = some p := by
  simp [get_last_post_id, save_mutate, alGet_alSet_self]

theorem get_last_save_ne (s : BotState) (u u' p now : String) (h : u' ≠ u) :
    get_last_post_id (save_mutate s u p now) u' = get_last_post_id s u' := by
  cases hacc : s.accounts with
  | none => simp [get_last_post_id, save_mutate, hacc, alGet_alSet_ne _ _ _ _ h, alGet,
      Ne.symm h]
  | some accs => simp [get_last_post_id, save_mutate, hacc, alGet_alSet_ne _ _ _ _ h]

theorem save_mutate_legacy (s : BotState) (u p now : String) :
    (save_mutate s u p now).legacy_last_post_id = s.legacy_last_post_id := rfl

theorem load_state_legacy_none (f : StateFile) :
    (load_state f).legacy_last_post_id = none := by
  cases f with
  | missing => rfl
  | corrupt => rfl
  | parsed s =>
    by_cases h : s.legacy_last_post_id.isSome
    · simp [load_state, h, emptyBotState]
    · simp [load_state, h]
      exact Option.not_isSome_iff_eq_none.mp h

theorem load_state_parsed_of_legacy_none (s : BotState) (h : s.legacy_last_post_id = none) :
    load_state (StateFile.parsed s) = s := by
  simp [load_state, h]

/-! ## Case lemmas about `process_account` -/

theorem noop_guard_false {pid : String} {last : Option String}
    (hne : last ≠ some pid) : (pyTruthy last && (some pid == last)) = false := by
  cases last with
  | none => simp [pyTruthy]
  | some q =>
    have hq : pid ≠ q := fun hh => hne (by rw [hh])
    simp [pyTruthy, hq]

theorem process_account_noop (u nit key : String) (relays : List String) (env : RunEnv)
    (w : World) (pid pt : String)
    (hscr : scrape_nitter_post u nit env.fetch = (some pid, some pt))
    (hpid : pid ≠ "") (hpt : pt ≠ "")
    (hlast : get_last_post_id w.mem u = some pid) :
    process_account u nit key relays env w = ⟨true, w, false⟩ := by
  simp only [process_account, hscr, hlast]
  simp [pyTruthy, hpid, hpt]

theorem process_account_publish (u nit key : String) (relays : List String) (env : RunEnv)
    (w : World) (pid pt : String)
    (hscr : scrape_nitter_post u nit env.fetch = (some pid, some pt))
    (hpid : pid ≠ "") (hpt : pt ≠ "")
    (hne : get_last_post_id w.mem u ≠ some pid)
    (hpub : (publish_to_nostr (format_nostr_note u pt pid) key relays env.sdk).1 =
      PublishResult.ok) :
    process_account u nit key relays env w =
      ⟨true, (save_state_for_account w u pid env.now env.saveOk).1, true⟩ := by
  simp only [process_account, hscr]
  rw [noop_guard_false hne]
  simp [pyTruthy, hpid, hpt, hpub, PublishResult.toBool]

theorem process_account_pubfail (u nit key : String) (relays : List String) (env : RunEnv)
    (w : World) (pid pt : String)
    (hscr : scrape_nitter_post u nit env.fetch = (some pid, some pt))
    (hpid : pid ≠ "") (hpt : pt ≠ "")
    (hne : get_last_post_id w.mem u ≠ some pid)
    (hpub : (publish_to_nostr (format_nostr_note u pt pid) key relays env.sdk).1.toBool =
      false) :
    process_account u nit key relays env w = ⟨false, w, true⟩ := by
  simp only [process_account, hscr]
  rw [noop_guard_false hne]
  simp [pyTruthy, hpid, hpt, hpub]

/-- Pr8: joining lines after prepending to the first line. -/
theorem joinLines_cons_append (a b : String) (ls : List String) :
    joinLines ((a ++ b) :: ls) = a ++ joinLines (b :: ls) := by
  cases ls with
  | nil => simp [joinLines]
  | cons c t =>
    apply String.ext
    simp [joinLines, String.data_append]

/-! ## Lemmas about the account loop -/

theorem runLoop_blank_cons (nit key : String) (relays : List String)
    (envOf : String → RunEnv) (a : String) (rest : List String) (w : World)
    (h : pyStrip a = "") :
    runLoop nit key relays envOf (a :: rest) w = runLoop nit key relays envOf rest w := by
  simp [runLoop, h]

theorem runLoop_cons_eff_world (nit key : String) (relays : List String)
    (envOf : String → RunEnv) (a : String) (rest : List String) (w : World)
    (h : pyStrip a ≠ "") :
    (runLoop nit key relays envOf (a :: rest) w).world =
      (runLoop nit key relays envOf rest
        (process_account (pyStrip a) nit key relays (envOf (pyStrip a)) w).world).world := by
  simp [runLoop, h]

theorem runLoop_cons_eff_publishes (nit key : String) (relays : List String)
    (envOf : String → RunEnv) (a : String) (rest : List String) (w : World)
    (h : pyStrip a ≠ "") :
    (runLoop nit key relays envOf (a :: rest) w).publishes =
      (if (process_account (pyStrip a) nit key relays (envOf (pyStrip a)) w).publishCalled
        then 1 else 0) +
      (runLoop nit key relays envOf rest
        (process_account (pyStrip a) nit key relays (envOf (pyStrip a)) w).world).publishes := by
  simp [runLoop, h]

theorem runInv_load (file0 : StateFile) (w : World) (h : runInv file0 w) :
    load_state w.file = w.mem := by
  obtain ⟨hf | hf, hleg⟩ := h
  · rw [hf.1, hf.2]
  · rw [hf]
    exact load_state_parsed_of_legacy_none _ hleg

theorem runLoop_preserves_seen (nit key : String) (relays : List String)
    (envOf : String → RunEnv) (pidf ptf : String → String) (l : List String) :
    ∀ (w : World) (u0 : String),
      (∀ a ∈ l, pyStrip a ≠ "" →
        goodAccountEnv nit key relays pidf ptf (envOf (pyStrip a)) (pyStrip a)) →
      get_last_post_id w.mem u0 = some (pidf u0) →
      get_last_post_id (runLoop nit key relays envOf l w).world.mem u0 = some (pidf u0) := by
  induction l with
  | nil => intro w u0 _ h0; simpa [runLoop] using h0
  | cons a rest ih =>
    intro w u0 h h0
    by_cases hb : pyStrip a = ""
    · rw [runLoop_blank_cons nit key relays envOf a rest w hb]
      exact ih w u0 (fun x hx => h x (List.mem_cons_of_mem _ hx)) h0
    · obtain ⟨hscr, hpid, hpt, hpub, hsave⟩ := h a (List.mem_cons_self a rest) hb
      by_cases hl : get_last_post_id w.mem (pyStrip a) = some (pidf (pyStrip a))
      · have hp := process_account_noop (pyStrip a) nit key relays (envOf (pyStrip a)) w
          (pidf (pyStrip a)) (ptf (pyStrip a)) hscr hpid hpt hl
        rw [runLoop_cons_eff_world nit key relays envOf a rest w hb]
        simp only [hp]
        exact ih w u0 (fun x hx => h x (List.mem_cons_of_mem _ hx)) h0
      · have hp := process_account_publish (pyStrip a) nit key relays (envOf (pyStrip a)) w
          (pidf (pyStrip a)) (ptf (pyStrip a)) hscr hpid hpt hl hpub
        rw [runLoop_cons_eff_world nit key relays envOf a rest w hb]
        simp only [hp, save_state_for_account, hsave, if_true]
        apply ih _ u0 (fun x hx => h x (List.mem_cons_of_mem _ hx))
        by_cases hu : u0 = pyStrip a
        · rw [hu]
          exact get_last_save_self w.mem (pyStrip a) (pidf (pyStrip a)) (envOf (pyStrip a)).now
        · rw [get_last_save_ne w.mem (pyStrip a) u0 (pidf (pyStrip a)) (envOf (pyStrip a)).now hu]
          exact h0

theorem runLoop_run1 (nit key : String) (relays : List String) (envOf : String → RunEnv)
    (pidf ptf : String → String) (file0 : StateFile) (l : List String) :
    ∀ (w : World),
      (∀ a ∈ l, pyStrip a ≠ "" →
        goodAccountEnv nit key relays pidf ptf (envOf (pyStrip a)) (pyStrip a)) →
      runInv file0 w →
      runInv file0 (runLoop nit key relays envOf l w).world
      ∧ ∀ a ∈ l, pyStrip a ≠ "" →
          get_last_post_id (runLoop nit key relays envOf l w).world.mem (pyStrip a) =
            some (pidf (pyStrip a)) := by
  induction l with
  | nil =>
    intro w _ hinv
    simpa [runLoop] using hinv
  | cons a rest ih =>
    intro w h hinv
    by_cases hb : pyStrip a = ""
    · rw [runLoop_blank_cons nit key relays envOf a rest w hb]
      obtain ⟨h1, h2⟩ := ih w (fun x hx => h x (List.mem_cons_of_mem _ hx)) hinv
      refine ⟨h1, ?_⟩
      intro x hx hxs
      rcases List.mem_cons.mp hx with rfl | hxr
      · exact absurd hb hxs
      · exact h2 x hxr hxs
    · obtain ⟨hscr, hpid, hpt, hpub, hsave⟩ := h a (List.mem_cons_self a rest) hb
      by_cases hl : get_last_post_id w.mem (pyStrip a) = some (pidf (pyStrip a))
      · have hp := process_account_noop (pyStrip a) nit key relays (envOf (pyStrip a)) w
          (pidf (pyStrip a)) (ptf (pyStrip a)) hscr hpid hpt hl
        obtain ⟨h1, h2⟩ := ih w (fun x hx => h x (List.mem_cons_of_mem _ hx)) hinv
        have hw : (runLoop nit key relays envOf (a :: rest) w).world =
            (runLoop nit key relays envOf rest w).world := by
          rw [runLoop_cons_eff_world nit key relays envOf a rest w hb]
          simp only [hp]
        rw [hw]
        refine ⟨h1, ?_⟩
        intro x hx hxs
        rcases List.mem_cons.mp hx with rfl | hxr
        · exact runLoop_preserves_seen nit key relays envOf pidf ptf rest w (pyStrip x)
            (fun y hy => h y (List.mem_cons_of_mem _ hy)) hl
        · exact h2 x hxr hxs
      · have hp := process_account_publish (pyStrip a) nit key relays (envOf (pyStrip a)) w
          (pidf (pyStrip a)) (ptf (pyStrip a)) hscr hpid hpt hl hpub
        have hsv : (save_state_for_account w (pyStrip a) (pidf (pyStrip a))
            (envOf (pyStrip a)).now (envOf (pyStrip a)).saveOk).1 =
            ⟨save_mutate w.mem (pyStrip a) (pidf (pyStrip a)) (envOf (pyStrip a)).now,
             StateFile.parsed
               (save_mutate w.mem (pyStrip a) (pidf (pyStrip a)) (envOf (pyStrip a)).now)⟩ := by
          simp [save_state_for_account, hsave]
        have hw : (runLoop nit key relays envOf (a :: rest) w).world =
            (runLoop nit key relays envOf rest
              ⟨save_mutate w.mem (pyStrip a) (pidf (pyStrip a)) (envOf (pyStrip a)).now,
               StateFile.parsed
                 (save_mutate w.mem (pyStrip a) (pidf (pyStrip a))
                   (envOf (pyStrip a)).now)⟩).world := by
          rw [runLoop_cons_eff_world nit key relays envOf a rest w hb]
          simp only [hp, hsv]
        have hinv' : runInv file0
            ⟨save_mutate w.mem (pyStrip a) (pidf (pyStrip a)) (envOf (pyStrip a)).now,
             StateFile.parsed
               (save_mutate w.mem (pyStrip a) (pidf (pyStrip a)) (envOf (pyStrip a)).now)⟩ := by
          refine ⟨Or.inr rfl, ?_⟩
          show (save_mutate w.mem (pyStrip a) (pidf (pyStrip a))
            (envOf (pyStrip a)).now).legacy_last_post_id = none
          rw [save_mutate_legacy]
          exact hinv.2
        obtain ⟨h1, h2⟩ := ih _ (fun x hx => h x (List.mem_cons_of_mem _ hx)) hinv'
        rw [hw]
        refine ⟨h1, ?_⟩
        intro x hx hxs
        rcases List.mem_cons.mp hx with rfl | hxr
        · exact runLoop_preserves_seen nit key relays envOf pidf ptf rest _ (pyStrip x)
            (fun y hy => h y (List.mem_cons_of_mem _ hy))
            (get_last_save_self w.mem (pyStrip x) (pidf (pyStrip x)) (envOf (pyStrip x)).now)
        · exact h2 x hxr hxs

theorem runLoop_run2 (nit key : String) (relays : List String) (envOf : String → RunEnv)
    (pidf ptf : String → String) (l : List String) :
    ∀ (w : World),
      (∀ a ∈ l, pyStrip a ≠ "" →
        goodAccountEnv nit key relays pidf ptf (envOf (pyStrip a)) (pyStrip a)) →
      (∀ a ∈ l, pyStrip a ≠ "" →
        get_last_post_id w.mem (pyStrip a) = some (pidf (pyStrip a))) →
      (runLoop nit key relays envOf l w).world = w
      ∧ (runLoop nit key relays envOf l w).publishes = 0 := by
  induction l with
  | nil => intro w _ _; simp [runLoop]
  | cons a rest ih =>
    intro w h hall
    by_cases hb : pyStrip a = ""
    · rw [runLoop_blank_cons nit key relays envOf a rest w hb]
      exact ih w (fun x hx => h x (List.mem_cons_of_mem _ hx))
        (fun x hx => hall x (List.mem_cons_of_mem _ hx))
    · obtain ⟨hscr, hpid, hpt, hpub, hsave⟩ := h a (List.mem_cons_self a rest) hb
      have hl := hall a (List.mem_cons_self a rest) hb
      have hp := process_account_noop (pyStrip a) nit key relays (envOf (pyStrip a)) w
        (pidf (pyStrip a)) (ptf (pyStrip a)) hscr hpid hpt hl
      obtain ⟨ihw, ihp⟩ := ih w (fun x hx => h x (List.mem_cons_of_mem _ hx))
        (fun x hx => hall x (List.mem_cons_of_mem _ hx))
      constructor
      · rw [runLoop_cons_eff_world nit key relays envOf a rest w hb]
        simp only [hp]
        exact ihw
      · rw [runLoop_cons_eff_publishes nit key relays envOf a rest w hb]
        simp only [hp]
        simp [ihp]

/-! ## The claim theorems -/

/-- C1: the claim says a hyperlink candidate taken from a `/status/` link
is accepted as `post_id` only when it is all digits, and that when every
candidate has a non-digit character (and no earlier strategy found an
id) extraction returns null/null. The code instead assigns the candidate
to `post_id` before the digit test (only the early `break` is guarded),
so on a page whose only status link is `/alice/status/abc123` and whose
text is found by strategy 4, extraction returns the non-digit id
`abc123` together with the text, not null/null. -/
theorem C1_strategy3_nondigit_id_returned :
    scrape_nitter_post "alice" "https://nitter.net" (FetchOutcome.page c1Soup) =
      (some "abc123", some "hello")
    ∧ pyIsDigit "abc123" = false := by
  exact ⟨by decide, by decide⟩

/-- C6: loading the state file is total: a missing file, a corrupt file
and a legacy single-account file (any top-level `"last_post_id"` key)
each load as the empty per-account mapping, the legacy value being
discarded, and `get_last_post_id` on such a loaded state is `None` for
every account. -/
theorem C6_load_state_tolerant (acc : Option (List (String × AccountState)))
    (legacyVal : String) (lu : Option String) (u : String) :
    load_state StateFile.missing = emptyBotState
    ∧ load_state StateFile.corrupt = emptyBotState
    ∧ load_state (StateFile.parsed ⟨acc, some legacyVal, lu⟩) = emptyBotState
    ∧ get_last_post_id (load_state StateFile.missing) u = none
    ∧ get_last_post_id (load_state StateFile.corrupt) u = none
    ∧ get_last_post_id (load_state (StateFile.parsed ⟨acc, some legacyVal, lu⟩)) u = none := by
  refine ⟨rfl, rfl, ?_, ?_, ?_, ?_⟩ <;>
    simp [load_state, emptyBotState, get_last_post_id, alGet]

/-- C8: the note formatter is a pure total function; its output contains
`post_text` verbatim for every input, and on the concrete inputs
`("alice", "hello world", "42")` it contains `@alice`, `> hello world`
and `https://x.com/alice/status/42` literally. -/
theorem C8_formatter_preserves_text :
    (∀ u t i : String, strContainsSub (format_nostr_note u t i) t)
    ∧ strContainsSub (format_nostr_note "alice" "hello world" "42") "@alice"
    ∧ strContainsSub (format_nostr_note "alice" "hello world" "42") "> hello world"
    ∧ strContainsSub (format_nostr_note "alice" "hello world" "42")
        "https://x.com/alice/status/42" := by
  refine ⟨?_, ?_, ?_, ?_⟩
  · intro u t i
    refine ⟨"Quote from @" ++ u ++ " on X:\n\n> ",
      "\n\nSource:\n" ++ ("https://x.com/" ++ u ++ "/status/" ++ i), ?_⟩
    apply String.ext
    simp [format_nostr_note, String.data_append]
  · exact ⟨"Quote from ",
      " on X:\n\n> hello world\n\nSource:\nhttps://x.com/alice/status/42", by decide⟩
  · exact ⟨"Quote from @alice on X:\n\n",
      "\n\nSource:\nhttps://x.com/alice/status/42", by decide⟩
  · exact ⟨"Quote from @alice on X:\n\n> hello world\n\nSource:\n", "", by decide⟩

/-- C10: for a post text made of several lines, the formatter's
block-quote marker `"> "` is placed only before the first line: the
output renders the remaining lines after each newline unmodified, with
no quote marker added. -/
theorem C10_quote_marker_first_line_only (u i l1 : String) (ls : List String) :
    format_nostr_note u (joinLines (l1 :: ls)) i =
      "Quote from @" ++ u ++ " on X:\n\n" ++ (joinLines (("> " ++ l1) :: ls) ++
        ("\n\nSource:\n" ++ ("https://x.com/" ++ u ++ "/status/" ++ i))) := by
  rw [joinLines_cons_append]
  apply String.ext
  simp [format_nostr_note, String.data_append]

/-- C2: when fetch and extraction succeed with a previously-unseen post
id and the publish succeeds (and the state write does not raise), the
resulting run reports success and the persisted state file maps the
account to exactly that post id (as does the in-memory state). -/
theorem C2_new_post_persists_exact_id (u nit key : String) (relays : List String)
    (env : RunEnv) (w : World) (pid pt : String)
    (hscr : scrape_nitter_post u nit env.fetch = (some pid, some pt))
    (hpid : pid ≠ "") (hpt : pt ≠ "")
    (hnew : get_last_post_id w.mem u ≠ some pid)
    (hpub : (publish_to_nostr (format_nostr_note u pt pid) key relays env.sdk).1 =
      PublishResult.ok)
    (hsave : env.saveOk = true) :
    (process_account u nit key relays env w).ok = true
    ∧ get_last_post_id (process_account u nit key relays env w).world.mem u = some pid
    ∧ ∃ s, (process_account u nit key relays env w).world.file = StateFile.parsed s
        ∧ get_last_post_id s u = some pid := by
  rw [process_account_publish u nit key relays env w pid pt hscr hpid hpt hnew hpub]
  refine ⟨rfl, ?_, ?_⟩
  · simp [save_state_for_account, hsave, get_last_save_self]
  · refine ⟨save_mutate w.mem u pid env.now, ?_, get_last_save_self _ _ _ _⟩
    simp [save_state_for_account, hsave]

/-- Witness for C2 at concrete inputs: unseen post 42 by alice is
published and persisted. -/
theorem C2_witness :
    (process_account "alice" "https://n" "nsec1k" ["wss://r"] envAllOk worldEmpty).ok = true
    ∧ get_last_post_id
        (process_account "alice" "https://n" "nsec1k" ["wss://r"] envAllOk worldEmpty).world.mem
        "alice" = some "42"
    ∧ ∃ s, (process_account "alice" "https://n" "nsec1k" ["wss://r"] envAllOk
          worldEmpty).world.file = StateFile.parsed s
        ∧ get_last_post_id s "alice" = some "42" :=
  C2_new_post_persists_exact_id "alice" "https://n" "nsec1k" ["wss://r"] envAllOk worldEmpty
    "42" "hi" (by decide) (by decide) (by decide) (by decide) (by decide) (by decide)

/-- C3: a failed publish makes the account's run a terminal failure (the
`false` result is tallied as an error by the account loop), the publish
was attempted, and neither the in-memory state nor the state file
changes. -/
theorem C3_publish_failure_no_state_change (u nit key : String) (relays : List String)
    (env : RunEnv) (w : World) (pid pt : String)
    (hscr : scrape_nitter_post u nit env.fetch = (some pid, some pt))
    (hpid : pid ≠ "") (hpt : pt ≠ "")
    (hnew : get_last_post_id w.mem u ≠ some pid)
    (hpub : (publish_to_nostr (format_nostr_note u pt pid) key relays env.sdk).1.toBool =
      false) :
    process_account u nit key relays env w = ⟨false, w, true⟩ :=
  process_account_pubfail u nit key relays env w pid pt hscr hpid hpt hnew hpub

/-- Witness for C3 at concrete inputs: the send fails, so the run fails
and the world is untouched. -/
theorem C3_witness :
    process_account "alice" "https://n" "nsec1k" ["wss://r"] envSendFail worldEmpty =
      ⟨false, worldEmpty, true⟩ :=
  C3_publish_failure_no_state_change "alice" "https://n" "nsec1k" ["wss://r"] envSendFail
    worldEmpty "42" "hi" (by decide) (by decide) (by decide) (by decide) (by decide)

/-- C4: when the freshly extracted post id equals the stored
`last_post_id`, the run is a no-op: no publish call, a `true` (success)
result, and an unchanged world. -/
theorem C4_same_post_noop (u nit key : String) (relays : List String)
    (env : RunEnv) (w : World) (pid pt : String)
    (hscr : scrape_nitter_post u nit env.fetch = (some pid, some pt))
    (hpid : pid ≠ "") (hpt : pt ≠ "")
    (hlast : get_last_post_id w.mem u = some pid) :
    process_account u nit key relays env w = ⟨true, w, false⟩ :=
  process_account_noop u nit key relays env w pid pt hscr hpid hpt hlast

/-- Witness for C4 at concrete inputs: alice's post 42 was already seen. -/
theorem C4_witness :
    process_account "alice" "https://n" "nsec1k" ["wss://r"] envAllOk worldSeen42 =
      ⟨true, worldSeen42, false⟩ :=
  C4_same_post_noop "alice" "https://n" "nsec1k" ["wss://r"] envAllOk worldSeen42
    "42" "hi" (by decide) (by decide) (by decide) (by decide)

/-- C7 counterexample: the claim as stated fails when the note exceeds
the length cap, because the cap is checked first: with a 32001-character
note and the bad credential `"x"`, the publisher reports `NoteTooLong`,
not `InvalidCredential`. -/
theorem C7_counterexample :
    pyStartsWith "x" "nsec1" = false
    ∧ (publish_to_nostr longNote "x" ["wss://relay.example"] sdkAllOk).1 =
        PublishResult.noteTooLong
    ∧ (publish_to_nostr longNote "x" ["wss://relay.example"] sdkAllOk).1 ≠
        PublishResult.invalidCredential := by
  have hlen : longNote.length = 32001 := by
    show (List.replicate 32001 'a').length = 32001
    exact List.length_replicate 32001 'a'
  refine ⟨by decide, ?_, ?_⟩
  · simp [publish_to_nostr, hlen]
  · simp [publish_to_nostr, hlen]

/-- C7 (amended): for a credential that does not start with `nsec1`
(which covers the absent credential `""`), if the note is within the
length cap the publisher returns `InvalidCredential` with no SDK
operation performed at all (no key derivation, no relay add, no connect,
no send); an over-long note fails first with `NoteTooLong`, likewise
with no SDK operation performed. -/
theorem C7_invalid_credential_no_network (note priv : String) (relays : List String)
    (sdk : SdkBehavior) (hk : pyStartsWith priv "nsec1" = false) :
    (note.length ≤ 32000 →
      publish_to_nostr note priv relays sdk = (PublishResult.invalidCredential, []))
    ∧ (32000 < note.length →
      publish_to_nostr note priv relays sdk = (PublishResult.noteTooLong, [])) := by
  constructor
  · intro hn
    have hgt : ¬note.length > 32000 := by omega
    simp [publish_to_nostr, hgt, hk]
  · intro hn
    simp [publish_to_nostr, hn]

/-- Witness for C7 at concrete inputs: a short note with the bad
credential `"x"` is rejected as `InvalidCredential` with an empty action
trace. -/
theorem C7_witness :
    publish_to_nostr "hi" "x" ["wss://relay.example"] sdkAllOk =
      (PublishResult.invalidCredential, []) :=
  (C7_invalid_credential_no_network "hi" "x" ["wss://relay.example"] sdkAllOk
    (by decide)).1 (by decide)

/-- C9: an account identifier that strips to the empty string
contributes nothing to the run: the loop over it equals the loop without
it, so there is no fetch, no publish, no state change, and no success or
error tallied for it (hence no effect on the exit status). -/
theorem C9_blank_account_skipped (nit key : String) (relays : List String)
    (envOf : String → RunEnv) (a : String) (rest : List String) (w : World)
    (h : pyStrip a = "") :
    runLoop nit key relays envOf (a :: rest) w = runLoop nit key relays envOf rest w := by
  simp [runLoop, h]

/-- Witness for C9 at concrete inputs: a whitespace-only identifier is
skipped. -/
theorem C9_witness :
    runLoop "https://n" "nsec1k" ["wss://r"] (fun _ => envAllOk) ["  ", "bob"] worldEmpty =
      runLoop "https://n" "nsec1k" ["wss://r"] (fun _ => envAllOk) ["bob"] worldEmpty :=
  C9_blank_account_skipped "https://n" "nsec1k" ["wss://r"] (fun _ => envAllOk) "  " ["bob"]
    worldEmpty (by decide)

/-- C5: running the orchestrator twice in a row, with each account's
fetch deterministically returning the same (successfully publishable)
post both times and the first run's state writes all succeeding, leaves
the persisted state file of the second run identical to that of the
first run and performs no publish call at all during the second run. -/
theorem C5_second_run_idempotent (nit key : String) (relays : List String)
    (envOf : String → RunEnv) (pidf ptf : String → String)
    (accounts : List String) (file0 : StateFile)
    (h : ∀ a ∈ accounts, pyStrip a ≠ "" →
      goodAccountEnv nit key relays pidf ptf (envOf (pyStrip a)) (pyStrip a)) :
    (mainRun nit key relays envOf accounts
        (mainRun nit key relays envOf accounts file0).world.file).world.file =
      (mainRun nit key relays envOf accounts file0).world.file
    ∧ (mainRun nit key relays envOf accounts
        (mainRun nit key relays envOf accounts file0).world.file).publishes = 0 := by
  have hinv0 : runInv file0 ⟨load_state file0, file0⟩ :=
    ⟨Or.inl ⟨rfl, rfl⟩, load_state_legacy_none file0⟩
  obtain ⟨h1, h2⟩ := runLoop_run1 nit key relays envOf pidf ptf file0 accounts
    ⟨load_state file0, file0⟩ h hinv0
  have hload := runInv_load file0 _ h1
  obtain ⟨hw, hpub⟩ := runLoop_run2 nit key relays envOf pidf ptf accounts
    (runLoop nit key relays envOf accounts ⟨load_state file0, file0⟩).world h h2
  constructor
  · show (runLoop nit key relays envOf accounts
      ⟨load_state (runLoop nit key relays envOf accounts ⟨load_state file0, file0⟩).world.file,
       (runLoop nit key relays envOf accounts ⟨load_state file0, file0⟩).world.file⟩).world.file =
      (runLoop nit key relays envOf accounts ⟨load_state file0, file0⟩).world.file
    rw [hload]
    show (runLoop nit key relays envOf accounts
      (runLoop nit key relays envOf accounts ⟨load_state file0, file0⟩).world).world.file =
      (runLoop nit key relays envOf accounts ⟨load_state file0, file0⟩).world.file
    rw [hw]
  · show (runLoop nit key relays envOf accounts
      ⟨load_state (runLoop nit key relays envOf accounts ⟨load_state file0, file0⟩).world.file,
       (runLoop nit key relays envOf accounts ⟨load_state file0, file0⟩).world.file⟩).publishes = 0
    rw [hload]
    show (runLoop nit key relays envOf accounts
      (runLoop nit key relays envOf accounts ⟨load_state file0, file0⟩).world).publishes = 0
    exact hpub

/-- Witness for C5 at concrete inputs: a single account whose fetch
always returns post 42. -/
theorem C5_witness :
    (mainRun "https://n" "nsec1k" ["wss://r"] (fun _ => envAllOk) ["alice"]
        (mainRun "https://n" "nsec1k" ["wss://r"] (fun _ => envAllOk) ["alice"]
          StateFile.missing).world.file).world.file =
      (mainRun "https://n" "nsec1k" ["wss://r"] (fun _ => envAllOk) ["alice"]
        StateFile.missing).world.file
    ∧ (mainRun "https://n" "nsec1k" ["wss://r"] (fun _ => envAllOk) ["alice"]
        (mainRun "https://n" "nsec1k" ["wss://r"] (fun _ => envAllOk) ["alice"]
          StateFile.missing).world.file).publishes = 0 :=
  C5_second_run_idempotent "https://n" "nsec1k" ["wss://r"] (fun _ => envAllOk)
    (fun _ => "42") (fun _ => "hi") ["alice"] StateFile.missing (by decide)

end XScrapper
